import Mathlib

/-!
Shallow embedding of the TNT speed-to-lead backend (lead scoring, escalation
notifications, email sequences, webhook ingestion, queue configuration),
translated from the JavaScript source, together with theorems settling the
specification claims.

Conventions of the embedding:
* Nullable SQL/JS values are `Option` types.  JavaScript relational operators
  (`>=`, `<=`, `>`) coerce `null` to `0`, which is captured by `jsNum`.
  JavaScript `x || d` treats both `null` and `0` as falsy, captured by `jsOr`.
* Timestamps are integer milliseconds since the Unix epoch.
* DECIMAL columns are embedded as `Int`; every comparison threshold in the
  source is an integer, so integral test points suffice for all claims.
-/

/-- Coercion used by JavaScript relational comparison: `null` compares as 0. -/
def jsNum (o : Option Int) : Int := o.getD 0

/-- Semantics of the JavaScript expression `x || d` for numeric `x`: both
`null` and `0` are falsy and select the default. -/
def jsOr (o : Option Int) (d : Int) : Int :=
  match o with
  | none => d
  | some v => if v = 0 then d else v

/-- Truthiness of a nullable string (`s && s.length > 0`). -/
def truthyStr (o : Option String) : Bool :=
  match o with
  | none => false
  | some s => s ≠ ""

/-- Lookup in a JS object literal used as a map, with a default for missing
keys (the source writes `mappings[value] || 0`; a stored `0` and a missing key
give the same result, so a plain default lookup is faithful). -/
def lookupD (m : List (String × Int)) (k : String) (d : Int) : Int :=
  match m.find? (fun p => p.1 == k) with
  | some p => p.2
  | none => d

/-- Lead record (`src/unnamed/part_002`, Sequelize model `Lead`), restricted to
the attributes the verified operations read or write. -/
structure Lead where
  id : Nat := 0
  company_name : String := ""
  contact_name : String := ""
  email : String := ""
  phone : Option String := none
  website : Option String := none
  service_type : String := "corporate"
  service_date : Option Int := none
  pickup_location : Option String := none
  dest : Option String := none
  passenger_count : Option Int := none
  estimated_value : Option Int := none
  budget_tier : Option String := none
  company_size_estimate : Option Int := none
  lead_score : Int := 0
  status : String := "new"
  priority_level : Int := 3
  distance_from_base : Option Int := none
  created_at : Int := 0
  converted_at : Option Int := none
deriving Repr, DecidableEq

/-- Service-type point table from `Lead.prototype.calculateScore`. -/
def serviceTypeScores : List (String × Int) :=
  [("corporate", 25), ("airport", 20), ("events", 15), ("wedding", 15), ("hourly", 10)]

/-- Translation of `Lead.prototype.calculateScore` (src/unnamed/part_002,
lines 801-845).  Null numeric fields behave as 0 under JS relational
operators, so a null `distance_from_base` falls in the `<= 25` bucket. -/
def Lead.calculateScore (lead : Lead) : Int :=
  let companyScore : Int := if lead.company_name ≠ "" then 10 else 0
  let valueScore : Int :=
    if jsNum lead.estimated_value ≥ 1000 then 30
    else if jsNum lead.estimated_value ≥ 500 then 20
    else if jsNum lead.estimated_value > 0 then 10
    else 0
  let serviceScore : Int := lookupD serviceTypeScores lead.service_type 0
  let proximityScore : Int :=
    if jsNum lead.distance_from_base ≤ 25 then 15
    else if jsNum lead.distance_from_base ≤ 50 then 10
    else if jsNum lead.distance_from_base ≤ 100 then 5
    else 0
  let groupScore : Int :=
    if jsNum lead.passenger_count ≥ 8 then 15
    else if jsNum lead.passenger_count ≥ 4 then 10
    else 0
  min (companyScore + valueScore + serviceScore + proximityScore + groupScore) 100

/-- Threshold table of `Lead.prototype.updatePriority` (part_002, 847-859). -/
def priorityFromScore (score : Int) : Int :=
  if score ≥ 80 then 5
  else if score ≥ 60 then 4
  else if score ≥ 40 then 3
  else if score ≥ 20 then 2
  else 1

/-- In-place priority recomputation, `Lead.prototype.updatePriority`. -/
def Lead.updatePriority (lead : Lead) : Lead :=
  { lead with priority_level := priorityFromScore lead.lead_score }

/-- The `Lead.beforeCreate` hook (part_002, 870-873): score the lead, then
derive its priority; composed with record construction this is `Lead.create`. -/
def createLead (input : Lead) : Lead :=
  Lead.updatePriority { input with lead_score := input.calculateScore }

/-- Update payload accepted by `PUT /api/v2/leads/:leadId`
(`leadSchemas.update` in the validation middleware, src/unnamed/part_003,
lines 361-368).  `notes`, `converted_revenue` and `lost_reason` have no lead
column and are dropped by Sequelize, so they do not appear here. -/
structure LeadUpdate where
  status : Option String := none
  estimated_value : Option Int := none
  priority_level : Option Int := none
deriving Repr, DecidableEq

/-- Application of an update followed by the `Lead.beforeUpdate` hook
(part_002, 875-885).  The hook recomputes score and priority only when one of
`estimated_value`, `service_type`, `passenger_count`, `distance_from_base`
changed; of these only `estimated_value` is reachable through the update
payloads in the repository (lead route, CRM webhook), and Sequelize's
`changed()` is false when a field is set to its previous value. -/
def applyLeadUpdate (lead : Lead) (u : LeadUpdate) (now : Int) : Lead :=
  let applied : Lead :=
    { lead with
      status := u.status.getD lead.status
      estimated_value :=
        match u.estimated_value with
        | some v => some v
        | none => lead.estimated_value
      priority_level := u.priority_level.getD lead.priority_level }
  let hooked : Lead :=
    if applied.estimated_value ≠ lead.estimated_value then
      Lead.updatePriority { applied with lead_score := applied.calculateScore }
    else applied
  if applied.status ≠ lead.status ∧ applied.status = "converted" then
    { hooked with converted_at := some now }
  else hooked

/-- Removal of the first occurrence of a character, the behaviour of the
JavaScript call `range.replace(c, '')` with a string pattern (which replaces
only the first occurrence). -/
def removeFirst (c : Char) : List Char → List Char
  | [] => []
  | x :: xs => if x = c then xs else x :: removeFirst c xs

/-- Splitting on a single-character separator, the behaviour of
`range.split(c)`. -/
def splitOnChar (c : Char) : List Char → List (List Char)
  | [] => [[]]
  | x :: xs =>
    let r := splitOnChar c xs
    if x = c then [] :: r
    else
      match r with
      | [] => [[x]]
      | h :: t => (x :: h) :: t

/-- Decimal value of a digit sequence. -/
def digitsToNat (l : List Char) : Nat :=
  l.foldl (fun acc c => acc * 10 + (c.toNat - 48)) 0

/-- Leading-digits integer parse, the behaviour of JavaScript `parseInt` on
the range keys used by scoring configurations; `none` stands for `NaN`. -/
def jsParseInt (l : List Char) : Option Int :=
  let ds := l.takeWhile (fun c => c.isDigit)
  if ds.isEmpty then none
  else some (Int.ofNat (digitsToNat ds))

/-- Behaviour of JavaScript `Number` on the substrings produced by splitting a
range key: the empty string is 0, digit strings parse, anything else is `NaN`
(`none`).  Every comparison against `NaN` is false. -/
def jsNumberChars (l : List Char) : Option Int :=
  if l.all (fun c => c.isDigit) then some (Int.ofNat (digitsToNat l))
  else none

/-- Translation of `ScoringFactor.prototype.valueInRange`
(src/src/models/ScoringFactor.js, lines 226-241): open-ended `"N+"` keys,
closed `"A-B"` keys, and exact numeric keys. -/
def valueInRange (value : Int) (range : String) : Bool :=
  let cs := range.data
  if cs.contains '+' then
    match jsParseInt (removeFirst '+' cs) with
    | some m => decide (value ≥ m)
    | none => false
  else if cs.contains '-' then
    match splitOnChar '-' cs with
    | a :: b :: _ =>
      match jsNumberChars a, jsNumberChars b with
      | some lo, some hi => decide (lo ≤ value ∧ value ≤ hi)
      | _, _ => false
    | _ => false
  else
    match jsParseInt cs with
    | some m => value == m
    | none => false

/-- Configurable scoring factor (src/src/models/ScoringFactor.js).  The JSONB
`value_mappings` object is embedded as an association list in object-key
order. -/
structure ScoringFactor where
  factor_name : String
  factor_category : String := "service"
  weight : Int := 0
  calculation_method : String := "exact_match"
  value_mappings : List (String × Int) := []
  active : Bool := true
deriving Repr, DecidableEq

/-- Mapping lookup `mappings[value] || 0` used throughout the factor
evaluators. -/
def jsLookup (m : List (String × Int)) (k : String) : Int := lookupD m k 0

/-- Translation of `ScoringFactor.prototype.calculateExactMatch`
(ScoringFactor.js, 113-134).  A null `budget_tier` indexes the mapping with
the key `"null"`, as JavaScript coerces object keys to strings. -/
def ScoringFactor.calculateExactMatch (f : ScoringFactor) (lead : Lead) : Int :=
  if f.factor_name == "company_name_present" then
    jsLookup f.value_mappings (if lead.company_name ≠ "" then "present" else "absent")
  else if f.factor_name == "service_type_priority" then
    jsLookup f.value_mappings lead.service_type
  else if f.factor_name == "budget_tier" then
    jsLookup f.value_mappings (lead.budget_tier.getD "null")
  else 0

/-- Attribute selection in `calculateRange` (ScoringFactor.js, 136-158); the
source's `||` defaults make a null or zero attribute fall back to the listed
default.  `none` is the early `return 0` for unrecognized factor names. -/
def rangeInput (name : String) (lead : Lead) : Option Int :=
  if name == "estimated_value_tier" then some (jsOr lead.estimated_value 0)
  else if name == "geographic_proximity" then some (jsOr lead.distance_from_base 999)
  else if name == "group_size_factor" then some (jsOr lead.passenger_count 1)
  else if name == "company_size_estimate" then some (jsOr lead.company_size_estimate 0)
  else none

/-- Translation of `ScoringFactor.prototype.calculateRange` (136-168): the
first mapping entry whose range key contains the attribute wins, otherwise 0. -/
def ScoringFactor.calculateRange (f : ScoringFactor) (lead : Lead) : Int :=
  match rangeInput f.factor_name lead with
  | none => 0
  | some value =>
    match f.value_mappings.find? (fun p => valueInRange value p.1) with
    | some p => p.2
    | none => 0

/-- Translation of `ScoringFactor.prototype.calculateDynamic` (170-198).
`hoursUntilService <= 24` is stated on the millisecond difference, which is
equivalent since dividing by the positive constant 3600000 preserves order.
Note the dependence on the evaluation time `now`. -/
def ScoringFactor.calculateDynamic (f : ScoringFactor) (lead : Lead) (now : Int) : Int :=
  if f.factor_name == "timing_urgency" then
    match lead.service_date with
    | none => jsLookup f.value_mappings "future"
    | some serviceDate =>
      if serviceDate - now ≤ 24 * 3600000 then jsLookup f.value_mappings "same_day"
      else if serviceDate - now ≤ 48 * 3600000 then jsLookup f.value_mappings "next_day"
      else jsLookup f.value_mappings "future"
  else if f.factor_name == "contact_completeness" then
    let completeness : Int :=
      (if lead.email ≠ "" then 25 else 0) + (if truthyStr lead.phone then 25 else 0) +
      (if lead.company_name ≠ "" then 25 else 0) +
      (if truthyStr lead.pickup_location || truthyStr lead.dest then 25 else 0)
    if completeness ≥ 100 then jsLookup f.value_mappings "complete"
    else if completeness ≥ 75 then jsLookup f.value_mappings "mostly_complete"
    else if completeness ≥ 50 then jsLookup f.value_mappings "partial"
    else jsLookup f.value_mappings "minimal"
  else 0

/-- Day of week of an epoch-millisecond timestamp (0 = Sunday), the value of
`Date.prototype.getDay` in UTC for post-epoch instants. -/
def jsDayOfWeek (ms : Int) : Nat := (ms.toNat / 86400000 + 4) % 7

/-- Translation of `ScoringFactor.prototype.calculateBoolean` (200-224);
`repeat_customer` is a hard-coded `false` placeholder in the source. -/
def ScoringFactor.calculateBoolean (f : ScoringFactor) (lead : Lead) : Int :=
  let condition : Bool :=
    if f.factor_name == "has_website" then truthyStr lead.website
    else if f.factor_name == "repeat_customer" then false
    else if f.factor_name == "weekend_submission" then
      jsDayOfWeek lead.created_at == 0 || jsDayOfWeek lead.created_at == 6
    else false
  if condition then jsLookup f.value_mappings "true" else jsLookup f.value_mappings "false"

/-- Translation of `ScoringFactor.prototype.calculateScore` (90-111),
dispatching on `calculation_method`; inactive factors score 0. -/
def ScoringFactor.calculateScore (f : ScoringFactor) (lead : Lead) (now : Int) : Int :=
  if !f.active then 0
  else if f.calculation_method == "exact_match" then f.calculateExactMatch lead
  else if f.calculation_method == "range" then f.calculateRange lead
  else if f.calculation_method == "calculation" then f.calculateDynamic lead now
  else if f.calculation_method == "boolean" then f.calculateBoolean lead
  else 0

/-- Translation of the class method `ScoringFactor.calculateLeadScore`
(269-280): sum the active factors' scores and cap at 100.  `findActive` orders
by weight, which does not affect the sum, so plain filtering is faithful. -/
def ScoringFactor.calculateLeadScore (factors : List ScoringFactor) (lead : Lead) (now : Int) : Int :=
  min ((factors.filter (fun f => f.active)).foldl (fun acc f => acc + f.calculateScore lead now) 0) 100

/-- Default factor configuration, `ScoringFactor.createDefaultFactors`
(ScoringFactor.js, 305-367). -/
def defaultScoringFactors : List ScoringFactor :=
  [ { factor_name := "company_name_present", factor_category := "company", weight := 10,
      calculation_method := "exact_match", value_mappings := [("present", 10), ("absent", 0)] },
    { factor_name := "estimated_value_tier", factor_category := "service", weight := 30,
      calculation_method := "range",
      value_mappings := [("1000+", 30), ("500-999", 20), ("100-499", 10), ("0-99", 5)] },
    { factor_name := "service_type_priority", factor_category := "service", weight := 25,
      calculation_method := "exact_match",
      value_mappings := [("corporate", 25), ("airport", 20), ("events", 15), ("wedding", 15), ("hourly", 10)] },
    { factor_name := "geographic_proximity", factor_category := "geographic", weight := 15,
      calculation_method := "range",
      value_mappings := [("0-25", 15), ("26-50", 10), ("51-100", 5), ("100+", 0)] },
    { factor_name := "group_size_factor", factor_category := "service", weight := 15,
      calculation_method := "range",
      value_mappings := [("8+", 15), ("4-7", 10), ("2-3", 5), ("1", 0)] },
    { factor_name := "timing_urgency", factor_category := "timing", weight := 5,
      calculation_method := "calculation",
      value_mappings := [("same_day", 5), ("next_day", 3), ("future", 1)] } ]

/-! ### Generic facts about mapping lookups and factor scores -/

theorem jsLookup_nonneg {m : List (String × Int)} (k : String)
    (h : ∀ p ∈ m, 0 ≤ p.2) : 0 ≤ jsLookup m k := by
  unfold jsLookup lookupD
  cases hf : m.find? (fun p => p.1 == k) with
  | none => simp
  | some p => exact h p (List.mem_of_find?_eq_some hf)

theorem calculateExactMatch_nonneg (f : ScoringFactor) (lead : Lead)
    (h : ∀ p ∈ f.value_mappings, 0 ≤ p.2) : 0 ≤ f.calculateExactMatch lead := by
  unfold ScoringFactor.calculateExactMatch
  split
  · exact jsLookup_nonneg _ h
  split
  · exact jsLookup_nonneg _ h
  split
  · exact jsLookup_nonneg _ h
  · exact le_refl 0

theorem calculateRange_nonneg (f : ScoringFactor) (lead : Lead)
    (h : ∀ p ∈ f.value_mappings, 0 ≤ p.2) : 0 ≤ f.calculateRange lead := by
  unfold ScoringFactor.calculateRange
  cases rangeInput f.factor_name lead with
  | none => exact le_refl 0
  | some v =>
    simp only
    cases hf : f.value_mappings.find? (fun p => valueInRange v p.1) with
    | none => exact le_refl 0
    | some p => exact h p (List.mem_of_find?_eq_some hf)

theorem calculateDynamic_nonneg (f : ScoringFactor) (lead : Lead) (now : Int)
    (h : ∀ p ∈ f.value_mappings, 0 ≤ p.2) : 0 ≤ f.calculateDynamic lead now := by
  unfold ScoringFactor.calculateDynamic
  dsimp only
  repeat' split
  all_goals first
    | exact jsLookup_nonneg _ h
    | exact le_refl 0

theorem calculateBoolean_nonneg (f : ScoringFactor) (lead : Lead)
    (h : ∀ p ∈ f.value_mappings, 0 ≤ p.2) : 0 ≤ f.calculateBoolean lead := by
  unfold ScoringFactor.calculateBoolean
  dsimp only
  repeat' split
  all_goals exact jsLookup_nonneg _ h

theorem factorScore_nonneg (f : ScoringFactor) (lead : Lead) (now : Int)
    (h : ∀ p ∈ f.value_mappings, 0 ≤ p.2) : 0 ≤ f.calculateScore lead now := by
  unfold ScoringFactor.calculateScore
  split
  · exact le_refl 0
  split
  · exact calculateExactMatch_nonneg f lead h
  split
  · exact calculateRange_nonneg f lead h
  split
  · exact calculateDynamic_nonneg f lead now h
  split
  · exact calculateBoolean_nonneg f lead h
  · exact le_refl 0

theorem foldl_score_nonneg (lead : Lead) (now : Int) :
    ∀ (l : List ScoringFactor) (acc : Int), 0 ≤ acc →
      (∀ f ∈ l, ∀ p ∈ f.value_mappings, 0 ≤ p.2) →
      0 ≤ l.foldl (fun acc f => acc + f.calculateScore lead now) acc := by
  intro l
  induction l with
  | nil => intro acc hacc _; simpa using hacc
  | cons f t ih =>
    intro acc hacc hall
    simp only [List.foldl_cons]
    exact ih _ (add_nonneg hacc (factorScore_nonneg f lead now (hall f (by simp))))
      (fun g hg => hall g (by simp [hg]))

/-! ### Claim C1: bounds and determinism of the scoring engine -/

/-- Concrete lead used to exercise the configurable scoring engine: a
corporate lead worth 1500 with a service date 200 hours after the epoch. -/
def c1Lead : Lead :=
  { company_name := "Acme Corp", contact_name := "Jane Roe", email := "jane@acme.test",
    service_type := "corporate", estimated_value := some 1500,
    passenger_count := some 6, distance_from_base := some 10,
    service_date := some (200 * 3600000) }

/-- Scoring factor with a negative configured point value; `value_mappings`
is an unconstrained JSONB column, so such configurations are accepted. -/
def c1NegativeFactor : ScoringFactor :=
  { factor_name := "company_name_present", calculation_method := "exact_match",
    value_mappings := [("present", -5), ("absent", 0)] }

/-- Claim C1, refutation of the claim as stated: with the default factor
configuration (which activates `timing_urgency`), the same lead under the
same factors scores 95 when evaluated 10 hours before its service date and 91
when evaluated 200 hours before it, so the score is not a function of lead
attributes and factor configuration alone; moreover a factor whose mapping
carries a negative point value drives the total below 0, so the score is not
always in [0, 100]. -/
theorem scoring_not_time_free_and_not_lower_bounded :
    ScoringFactor.calculateLeadScore defaultScoringFactors c1Lead (190 * 3600000) = 95 ∧
    ScoringFactor.calculateLeadScore defaultScoringFactors c1Lead 0 = 91 ∧
    ScoringFactor.calculateLeadScore [c1NegativeFactor] c1Lead 0 = -5 := by
  refine ⟨by decide, by decide, by decide⟩

/-- Claim C1 (amended): for every lead, factor configuration and evaluation
time, the computed score is `min(100, Σ points)`, hence at most 100; when
every configured mapping point value is non-negative (as in all factors the
repository installs) the score is also non-negative.  The score is a
deterministic, side-effect-free function of the lead's attributes, the active
factor configuration, and the evaluation time — `timing_urgency` reads the
current time, so time cannot be dropped from the signature. -/
theorem calculateLeadScore_bounds (factors : List ScoringFactor) (lead : Lead) (now : Int)
    (h : ∀ f ∈ factors, ∀ p ∈ f.value_mappings, 0 ≤ p.2) :
    0 ≤ ScoringFactor.calculateLeadScore factors lead now ∧
      ScoringFactor.calculateLeadScore factors lead now ≤ 100 := by
  unfold ScoringFactor.calculateLeadScore
  constructor
  · apply le_min
    · exact foldl_score_nonneg lead now _ 0 (le_refl 0)
        (fun f hf => h f (List.mem_of_mem_filter hf))
    · norm_num
  · exact min_le_right _ _

/-- Witness for `calculateLeadScore_bounds` at the default factor
configuration and a concrete lead and time. -/
theorem calculateLeadScore_bounds_witness :
    0 ≤ ScoringFactor.calculateLeadScore defaultScoringFactors c1Lead 0 ∧
      ScoringFactor.calculateLeadScore defaultScoringFactors c1Lead 0 ≤ 100 :=
  calculateLeadScore_bounds defaultScoringFactors c1Lead 0 (by decide)

/-! ### Claim C8: the worked scoring scenario -/

/-- Claim C8: a lead with `estimated_value = 1500`, `service_type =
corporate`, `passenger_count = 6` and `distance_from_base = 10` (and a
non-empty company name, as the scenario's `company(10)` term presupposes)
scores 10 + 30 + 25 + 15 + 10 = 90 under `Lead.prototype.calculateScore`, and
creation stores that score with derived `priority_level = 5`. -/
theorem scenario_corporate_lead_scores_90 (lead : Lead)
    (hc : lead.company_name ≠ "")
    (he : lead.estimated_value = some 1500)
    (hs : lead.service_type = "corporate")
    (hp : lead.passenger_count = some 6)
    (hd : lead.distance_from_base = some 10) :
    lead.calculateScore = 90 ∧
      (createLead lead).lead_score = 90 ∧ (createLead lead).priority_level = 5 := by
  have h90 : lead.calculateScore = 90 := by
    unfold Lead.calculateScore
    rw [he, hs, hp, hd]
    simp [jsNum, lookupD, serviceTypeScores, hc]
  refine ⟨h90, ?_, ?_⟩
  · simp [createLead, Lead.updatePriority, h90]
  · simp [createLead, Lead.updatePriority, h90, priorityFromScore]

/-- Witness for `scenario_corporate_lead_scores_90` at a concrete lead. -/
theorem scenario_corporate_lead_scores_90_witness :
    c1Lead.calculateScore = 90 ∧
      (createLead c1Lead).lead_score = 90 ∧ (createLead c1Lead).priority_level = 5 :=
  scenario_corporate_lead_scores_90 c1Lead (by decide) (by decide) (by decide)
    (by decide) (by decide)

/-! ### Claims C7 and C9: priority consistency and the scoring frame rule -/

/-- Stored lead used for the priority-consistency claims: created with score
90 and priority 5. -/
def c7Lead : Lead :=
  createLead
    { company_name := "Beta LLC", contact_name := "Kim Lee", email := "kim@beta.test",
      service_type := "corporate", estimated_value := some 1500,
      passenger_count := some 6, distance_from_base := some 10 }

/-- Claim C7, refutation of the claim as stated: the update route's schema
accepts a direct `priority_level` value, and the `beforeUpdate` hook leaves it
untouched when no scoring attribute changed, so an update `{priority_level:
1}` on a lead with stored score 90 ends with `priority_level = 1` while the
threshold table demands 5. -/
theorem priority_override_breaks_lockstep :
    (applyLeadUpdate c7Lead { priority_level := some 1 } 0).lead_score = 90 ∧
      (applyLeadUpdate c7Lead { priority_level := some 1 } 0).priority_level = 1 ∧
      priorityFromScore 90 = 5 := by
  refine ⟨by decide, by decide, by decide⟩

/-- Claim C7 (amended): after every create, and after every update whose
payload does not set `priority_level` directly, the stored `priority_level`
equals the fixed threshold table applied to the stored `lead_score`; the
consistency is preserved in lockstep because the hook recomputes both fields
together whenever a scoring attribute changes. -/
theorem priority_consistent_with_score (input lead : Lead) (u : LeadUpdate) (now : Int)
    (hinv : lead.priority_level = priorityFromScore lead.lead_score)
    (hu : u.priority_level = none) :
    (createLead input).priority_level = priorityFromScore (createLead input).lead_score ∧
      (applyLeadUpdate lead u now).priority_level =
        priorityFromScore (applyLeadUpdate lead u now).lead_score := by
  constructor
  · simp [createLead, Lead.updatePriority]
  · unfold applyLeadUpdate
    dsimp only
    rw [hu]
    split
    · split
      · simp [Lead.updatePriority]
      · simpa using hinv
    · split
      · simp [Lead.updatePriority]
      · simpa using hinv

/-- Witness for `priority_consistent_with_score`: a status-only update on the
concrete stored lead. -/
theorem priority_consistent_with_score_witness :
    c7Lead.priority_level = priorityFromScore c7Lead.lead_score ∧
      ({ status := some "contacted" } : LeadUpdate).priority_level = none ∧
      (createLead c7Lead).priority_level = priorityFromScore (createLead c7Lead).lead_score ∧
      (applyLeadUpdate c7Lead { status := some "contacted" } 0).priority_level =
        priorityFromScore (applyLeadUpdate c7Lead { status := some "contacted" } 0).lead_score := by
  have h := priority_consistent_with_score c7Lead c7Lead { status := some "contacted" } 0
    (by decide) (by decide)
  exact ⟨by decide, by decide, h.1, h.2⟩

/-- Claim C9: an update whose payload does not modify any attribute used in
score computation (the only scoring attribute reachable through the update
payload is `estimated_value`; setting it to its current value is not a
modification, per Sequelize's `changed()`) leaves the stored `lead_score`
unchanged. -/
theorem nonscoring_update_preserves_score (lead : Lead) (u : LeadUpdate) (now : Int)
    (h : ∀ v, u.estimated_value = some v → lead.estimated_value = some v) :
    (applyLeadUpdate lead u now).lead_score = lead.lead_score := by
  have happ :
      (match u.estimated_value with
        | some v => some v
        | none => lead.estimated_value) = lead.estimated_value := by
    cases hv : u.estimated_value with
    | none => rfl
    | some v => exact (h v hv).symm
  unfold applyLeadUpdate
  dsimp only
  rw [happ]
  split
  · split
    · exact absurd rfl (by assumption)
    · rfl
  · split
    · exact absurd rfl (by assumption)
    · rfl

/-- Witness for `nonscoring_update_preserves_score`: updating status, notes
and priority only. -/
theorem nonscoring_update_preserves_score_witness :
    (applyLeadUpdate c7Lead { status := some "qualified", priority_level := some 2 } 5).lead_score
      = c7Lead.lead_score :=
  nonscoring_update_preserves_score c7Lead { status := some "qualified", priority_level := some 2 } 5
    (fun v hv => by simp at hv)

/-! ### Email sequences (src/src/models/EmailSequence.js) -/

/-- Follow-up sequence record; `active = false` with `completed_at` set is the
completed state and `active = false` with a `paused_reason` the paused state,
as in the source's `getPerformanceMetrics` status derivation. -/
structure EmailSequence where
  seq_id : Nat := 0
  lead_id : Nat := 0
  sequence_name : String := "standard_follow_up"
  current_step : Nat := 1
  total_steps : Nat := 4
  started_at : Int := 0
  next_send_at : Option Int := none
  completed_at : Option Int := none
  active : Bool := true
  paused_reason : Option String := none
  emails_sent : Nat := 0
  emails_opened : Nat := 0
  responses_received : Nat := 0
deriving Repr, DecidableEq

/-- Step-delay tables (minutes) of `calculateNextSendTime`
(EmailSequence.js, 149-163); unknown names fall back to the standard table. -/
def sequenceTimings (name : String) : List Nat :=
  if name == "standard_follow_up" then [0, 3 * 24 * 60, 7 * 24 * 60, 14 * 24 * 60]
  else if name == "high_value_follow_up" then [0, 2 * 60, 24 * 60, 3 * 24 * 60]
  else if name == "corporate_nurture" then [0, 24 * 60, 7 * 24 * 60, 30 * 24 * 60]
  else if name == "wedding_follow_up" then [0, 2 * 24 * 60, 7 * 24 * 60, 21 * 24 * 60]
  else [0, 3 * 24 * 60, 7 * 24 * 60, 14 * 24 * 60]

/-- Translation of `EmailSequence.prototype.calculateNextSendTime`: when the
current step is within the timing table, schedule `delayMinutes` from now;
otherwise leave `next_send_at` untouched. -/
def EmailSequence.calculateNextSendTime (s : EmailSequence) (now : Int) : EmailSequence :=
  let timing := sequenceTimings s.sequence_name
  if s.current_step ≤ timing.length then
    { s with next_send_at := some (now + (timing.getD (s.current_step - 1) 0) * 60000) }
  else s

/-- Translation of `EmailSequence.prototype.complete` (128-133). -/
def EmailSequence.complete (s : EmailSequence) (now : Int) : EmailSequence :=
  { s with active := false, completed_at := some now, next_send_at := none }

/-- Translation of `EmailSequence.prototype.advance` (118-126). -/
def EmailSequence.advance (s : EmailSequence) (now : Int) : EmailSequence :=
  if s.current_step < s.total_steps then
    EmailSequence.calculateNextSendTime { s with current_step := s.current_step + 1 } now
  else s.complete now

/-- Translation of `EmailSequence.prototype.pause` (135-140). -/
def EmailSequence.pause (s : EmailSequence) (reason : String) : EmailSequence :=
  { s with active := false, paused_reason := some reason, next_send_at := none }

/-- Translation of `EmailSequence.prototype.resume` (142-147). -/
def EmailSequence.resume (s : EmailSequence) (now : Int) : EmailSequence :=
  EmailSequence.calculateNextSendTime { s with active := true, paused_reason := none } now

/-- Translation of `EmailSequence.createStandardSequence` (230-246) composed
with the `beforeCreate` hook: every entry of `sequenceConfig`, including the
fallback, fixes `total_steps = 4`, and the hook computes the first send
time. -/
def createStandardSequence (seqId leadId : Nat) (sequenceType : String) (now : Int) :
    EmailSequence :=
  EmailSequence.calculateNextSendTime
    { seq_id := seqId, lead_id := leadId, sequence_name := sequenceType,
      current_step := 1, total_steps := 4, started_at := now, next_send_at := none,
      completed_at := none, active := true, paused_reason := none } now

/-- Every timing table has exactly four entries, so four-step sequences always
stay within it. -/
theorem sequenceTimings_length (name : String) : (sequenceTimings name).length = 4 := by
  unfold sequenceTimings
  repeat' split
  all_goals rfl

/-! ### Claim C4: advance never passes total_steps -/

/-- Claim C4: for sequences created by `createStandardSequence` (which always
sets `current_step = 1` and `total_steps = 4`, within the four-entry timing
tables), `advance()` below the final step increments `current_step` by
exactly one and recomputes `next_send_at` from the step table, `advance()` at
the final step completes the sequence (clears `active` and `next_send_at`,
sets `completed_at`) without touching `current_step`, and in both cases
`current_step ≤ total_steps` is preserved. -/
theorem advance_respects_total_steps (s : EmailSequence) (now : Int)
    (hle : s.current_step ≤ s.total_steps)
    (hlen : s.total_steps ≤ (sequenceTimings s.sequence_name).length) :
    (s.advance now).current_step ≤ (s.advance now).total_steps ∧
      (s.current_step < s.total_steps →
        (s.advance now).current_step = s.current_step + 1 ∧
        (s.advance now).next_send_at =
          some (now + ((sequenceTimings s.sequence_name).getD s.current_step 0) * 60000)) ∧
      (s.current_step = s.total_steps →
        (s.advance now).active = false ∧
        (s.advance now).completed_at = some now ∧
        (s.advance now).next_send_at = none ∧
        (s.advance now).current_step = s.current_step) := by
  unfold EmailSequence.advance
  by_cases hlt : s.current_step < s.total_steps
  · rw [if_pos hlt]
    have hstep : s.current_step + 1 ≤ (sequenceTimings s.sequence_name).length :=
      le_trans hlt hlen
    constructor
    · unfold EmailSequence.calculateNextSendTime
      dsimp only
      rw [if_pos hstep]
      exact hlt
    constructor
    · intro _
      unfold EmailSequence.calculateNextSendTime
      dsimp only
      rw [if_pos hstep]
      exact ⟨rfl, by simp⟩
    · intro heq; exact absurd heq (Nat.ne_of_lt hlt)
  · rw [if_neg hlt]
    refine ⟨?_, fun h => absurd h hlt, fun _ => ⟨rfl, rfl, rfl, rfl⟩⟩
    simpa [EmailSequence.complete] using hle

/-- Witness for `advance_respects_total_steps` on a freshly created standard
sequence. -/
theorem advance_respects_total_steps_witness :
    ((createStandardSequence 1 1 "standard_follow_up" 0).current_step ≤
        (createStandardSequence 1 1 "standard_follow_up" 0).total_steps) ∧
      ((createStandardSequence 1 1 "standard_follow_up" 0).total_steps ≤
        (sequenceTimings (createStandardSequence 1 1 "standard_follow_up" 0).sequence_name).length) ∧
      ((createStandardSequence 1 1 "standard_follow_up" 0).advance 100).current_step ≤
        ((createStandardSequence 1 1 "standard_follow_up" 0).advance 100).total_steps := by
  have h := advance_respects_total_steps (createStandardSequence 1 1 "standard_follow_up" 0) 100
    (by decide) (by decide)
  exact ⟨by decide, by decide, h.1⟩

/-! ### Claim C5: at most one active sequence per lead -/

/-- Sequence-type selection in `processInstantResponse`
(src/src/queues/processors/emailProcessor.js, lines 84-87). -/
def leadSequenceType (lead : Lead) : String :=
  if lead.lead_score ≥ 70 then "high_value_follow_up"
  else if lead.service_type == "corporate" then "corporate_nurture"
  else if lead.service_type == "wedding" then "wedding_follow_up"
  else "standard_follow_up"

/-- Sequence-creation step of `processInstantResponse` (emailProcessor.js,
79-90): a follow-up sequence is created only when the lead has no active
sequence. -/
def processInstantResponseSequences (seqs : List EmailSequence) (lead : Lead)
    (newId : Nat) (now : Int) : List EmailSequence :=
  let existing := seqs.filter (fun s => s.lead_id == lead.id && s.active)
  if existing.length == 0 then
    seqs ++ [createStandardSequence newId lead.id (leadSequenceType lead) now]
  else seqs

/-- Replacement of the first element satisfying a predicate, modelling an
update of the row returned by `findOne`. -/
def updateFirst {α : Type} (p : α → Bool) (f : α → α) : List α → List α
  | [] => []
  | x :: xs => if p x then f x :: xs else x :: updateFirst p f xs

/-- Sequence-type selection of the automation trigger
(src/src/routes/automation.js, line 59). -/
def automationSequenceType (lead : Lead) : String :=
  if lead.lead_score ≥ 70 then "high_value_follow_up" else "standard_follow_up"

/-- The `follow_up_sequence` branch of `POST /api/v2/automation/trigger`
(automation.js, 49-63): an existing active sequence for the lead is resumed;
only when none exists is a new sequence created. -/
def automationFollowUpTrigger (seqs : List EmailSequence) (lead : Lead)
    (newId : Nat) (now : Int) : List EmailSequence :=
  match seqs.find? (fun s => s.lead_id == lead.id && s.active) with
  | some _ =>
    updateFirst (fun s => s.lead_id == lead.id && s.active) (fun s => s.resume now) seqs
  | none => seqs ++ [createStandardSequence newId lead.id (automationSequenceType lead) now]

/-- Number of active sequences a given lead owns. -/
def countActive (seqs : List EmailSequence) (lid : Nat) : Nat :=
  (seqs.filter (fun s => s.lead_id == lid && s.active)).length

theorem countActive_append (a b : List EmailSequence) (lid : Nat) :
    countActive (a ++ b) lid = countActive a lid + countActive b lid := by
  simp [countActive, List.filter_append]

theorem calculateNextSendTime_fields (s : EmailSequence) (now : Int) :
    (s.calculateNextSendTime now).lead_id = s.lead_id ∧
      (s.calculateNextSendTime now).active = s.active := by
  unfold EmailSequence.calculateNextSendTime
  dsimp only
  split
  · exact ⟨rfl, rfl⟩
  · exact ⟨rfl, rfl⟩

theorem createStandardSequence_fields (i l : Nat) (t : String) (now : Int) :
    (createStandardSequence i l t now).lead_id = l ∧
      (createStandardSequence i l t now).active = true := by
  unfold createStandardSequence
  exact calculateNextSendTime_fields _ now

theorem length_updateFirst {α : Type} (p : α → Bool) (f : α → α) :
    ∀ l : List α, (updateFirst p f l).length = l.length := by
  intro l
  induction l with
  | nil => rfl
  | cons x xs ih =>
    unfold updateFirst
    by_cases hp : p x
    · simp [hp]
    · simp [hp, ih]

theorem countActive_updateFirst (p : EmailSequence → Bool) (f : EmailSequence → EmailSequence)
    (lid : Nat)
    (h : ∀ x, p x = true →
      (((f x).lead_id == lid) && (f x).active) = ((x.lead_id == lid) && x.active)) :
    ∀ seqs, countActive (updateFirst p f seqs) lid = countActive seqs lid := by
  intro seqs
  induction seqs with
  | nil => rfl
  | cons x xs ih =>
    unfold updateFirst
    by_cases hp : p x
    · rw [if_pos hp]
      simp only [countActive, List.filter_cons, h x hp]
      split
      · simp [countActive]
      · simp [countActive]
    · rw [if_neg hp]
      simp only [countActive, List.filter_cons]
      split
      · simpa [countActive] using ih
      · simpa [countActive] using ih

/-- Active-sequence count of a single record is at most one. -/
theorem countActive_singleton_le (s : EmailSequence) (lid : Nat) :
    countActive [s] lid ≤ 1 := by
  unfold countActive
  exact le_trans (List.length_filter_le _ _) (by simp)

/-- A record owned by a different lead contributes no active sequence. -/
theorem countActive_singleton_ne (s : EmailSequence) (lid : Nat) (h : s.lead_id ≠ lid) :
    countActive [s] lid = 0 := by
  unfold countActive
  rw [List.filter_cons]
  have hbeq : (s.lead_id == lid) = false := by simp [h]
  simp [hbeq]

/-- Claim C5: if every lead has at most one active sequence, then both the
instant-response sequence-creation step and the automation follow-up trigger
preserve that invariant, and when the lead already has an active sequence the
trigger resumes it in place instead of creating a new record (the sequence
list keeps its length). -/
theorem at_most_one_active_sequence (seqs : List EmailSequence) (lead : Lead)
    (newId : Nat) (now : Int)
    (hinv : ∀ lid, countActive seqs lid ≤ 1) :
    (∀ lid, countActive (processInstantResponseSequences seqs lead newId now) lid ≤ 1) ∧
      (∀ lid, countActive (automationFollowUpTrigger seqs lead newId now) lid ≤ 1) ∧
      ((seqs.find? (fun s => s.lead_id == lead.id && s.active)).isSome = true →
        (automationFollowUpTrigger seqs lead newId now).length = seqs.length) := by
  have hresume : ∀ x : EmailSequence,
      ((x.lead_id == lead.id) && x.active) = true →
      ∀ lid, (((x.resume now).lead_id == lid) && (x.resume now).active) =
        ((x.lead_id == lid) && x.active) := by
    intro x hx lid
    have hfields := calculateNextSendTime_fields
      { x with active := true, paused_reason := none } now
    have hact : x.active = true := by
      simp only [Bool.and_eq_true] at hx
      exact hx.2
    unfold EmailSequence.resume
    rw [hfields.1, hfields.2]
    simp [hact]
  have hnewfields := createStandardSequence_fields newId lead.id
  refine ⟨?_, ?_, ?_⟩
  · intro lid
    unfold processInstantResponseSequences
    dsimp only
    split
    · rename_i hzero
      rw [countActive_append]
      have h0 : countActive seqs lead.id = 0 := by
        simpa [countActive] using hzero
      by_cases hl : lid = lead.id
      · rw [hl, h0]
        simpa using countActive_singleton_le _ lead.id
      · have h1 : countActive
            [createStandardSequence newId lead.id (leadSequenceType lead) now] lid = 0 := by
          apply countActive_singleton_ne
          rw [(hnewfields (leadSequenceType lead) now).1]
          exact fun he => hl he.symm
        rw [h1]
        simpa using hinv lid
    · exact hinv lid
  · intro lid
    unfold automationFollowUpTrigger
    cases hfind : seqs.find? (fun s => s.lead_id == lead.id && s.active) with
    | some s =>
      dsimp only
      rw [countActive_updateFirst _ _ lid (fun x hx => hresume x hx lid)]
      exact hinv lid
    | none =>
      dsimp only
      rw [countActive_append]
      have h0 : countActive seqs lead.id = 0 := by
        unfold countActive
        rw [List.filter_eq_nil_iff.mpr]
        · rfl
        · intro x hx hcontra
          exact List.find?_eq_none.mp hfind x hx hcontra
      by_cases hl : lid = lead.id
      · rw [hl, h0]
        simpa using countActive_singleton_le _ lead.id
      · have h1 : countActive
            [createStandardSequence newId lead.id (automationSequenceType lead) now] lid = 0 := by
          apply countActive_singleton_ne
          rw [(hnewfields (automationSequenceType lead) now).1]
          exact fun he => hl he.symm
        rw [h1]
        simpa using hinv lid
  · intro hsome
    unfold automationFollowUpTrigger
    cases hfind : seqs.find? (fun s => s.lead_id == lead.id && s.active) with
    | some s => exact length_updateFirst _ _ seqs
    | none => rw [hfind] at hsome; simp at hsome

/-- Witness for `at_most_one_active_sequence`: a one-element sequence list for
lead 7, triggered again for the same lead. -/
theorem at_most_one_active_sequence_witness :
    (∀ lid, countActive [createStandardSequence 1 7 "standard_follow_up" 0] lid ≤ 1) ∧
      (∀ lid,
        countActive
          (automationFollowUpTrigger [createStandardSequence 1 7 "standard_follow_up" 0]
            { id := 7 } 2 5) lid ≤ 1) := by
  have hinv : ∀ lid, countActive [createStandardSequence 1 7 "standard_follow_up" 0] lid ≤ 1 := by
    intro lid
    unfold countActive
    exact le_trans (List.length_filter_le _ _) (by simp)
  exact ⟨hinv, (at_most_one_active_sequence _ { id := 7 } 2 5 hinv).2.1⟩

/-! ### Notifications and the response-time escalation processor -/

/-- Notification record (src/src/models/Notification.js), restricted to the
structural fields; title and message are rendered text and carry no further
state. -/
structure Notification where
  lead_id : Nat
  notification_type : String
  priority : Int
  send_email : Bool := true
  send_sms : Bool := false
  send_slack : Bool := false
  sent : Bool := false
  read : Bool := false
  action_required : Bool := false
  created_at : Int := 0
  expires_at : Option Int := none
deriving Repr, DecidableEq

/-- Translation of `Notification.createResponseNeededAlert`
(Notification.js, 236-251): an unconditional insert of a `response_needed`
notification with priority 4 and a 30-minute expiry. -/
def createResponseNeededAlert (lead : Lead) (now : Int) : Notification :=
  { lead_id := lead.id, notification_type := "response_needed", priority := 4,
    send_email := true, send_slack := true, action_required := true,
    created_at := now, expires_at := some (now + 30 * 60 * 1000) }

/-- Outcome of one `response_time_alert` job. -/
structure AlertOutcome where
  notifications : List Notification
  status : String
  urgency : Option String
deriving Repr, DecidableEq

/-- Translation of `processResponseTimeAlert`
(src/src/queues/processors/notificationProcessor.js, lines 134-243), reduced
to its persistent effect: a missing lead throws (`none`); a lead that is no
longer `new` is skipped; otherwise a `response_needed` notification is
appended unconditionally — the processor performs no lookup of previously
created escalation notifications — and the result's urgency is `critical`
when at least 10 minutes elapsed, `high` otherwise. -/
def processResponseTimeAlert (leads : List Lead) (notifs : List Notification)
    (leadId : Nat) (minutesElapsed : Int) (now : Int) : Option AlertOutcome :=
  match leads.find? (fun l => l.id == leadId) with
  | none => none
  | some lead =>
    if lead.status ≠ "new" then
      some { notifications := notifs, status := "skipped", urgency := none }
    else
      some { notifications := notifs ++ [createResponseNeededAlert lead now],
             status := "processed",
             urgency := some (if minutesElapsed ≥ 10 then "critical" else "high") }

/-- Escalation notifications held for a given lead. -/
def responseNeededFor (notifs : List Notification) (lid : Nat) : List Notification :=
  notifs.filter (fun n => n.lead_id == lid && n.notification_type == "response_needed")

/-- Lead stuck in `new` status used for the escalation claims. -/
def c2Lead : Lead :=
  { id := 42, company_name := "Gamma Inc", contact_name := "Ada Li",
    email := "ada@gamma.test", service_type := "airport", created_at := 0 }

/-- First scan past the 5-minute threshold: 6 minutes elapsed. -/
def c2AfterFirstScan : Option AlertOutcome :=
  processResponseTimeAlert [c2Lead] [] 42 6 (6 * 60000)

/-- Second scan two minutes later, the lead still unresolved. -/
def c2AfterSecondScan : Option AlertOutcome :=
  match c2AfterFirstScan with
  | some o => processResponseTimeAlert [c2Lead] o.notifications 42 8 (8 * 60000)
  | none => none

/-- Claim C2, refutation of the claim as stated: the processor deduplicates
nothing, so two successive scans past the 5-minute threshold (6 and 8 minutes,
both below the critical threshold) each append an escalation notification for
the same still-new lead, leaving two `response_needed` notifications where the
claim allows exactly one. -/
theorem escalation_notifications_duplicated_per_scan :
    (c2AfterFirstScan.map (fun o => (responseNeededFor o.notifications 42).length)
        = some 1) ∧
      (c2AfterSecondScan.map (fun o => (responseNeededFor o.notifications 42).length)
        = some 2) ∧
      (c2AfterSecondScan.map (fun o => o.urgency) = some (some "high")) := by
  refine ⟨by decide, by decide, by decide⟩

/-- Claim C2 (amended): every processed `response_time_alert` job for a lead
still in `new` status appends exactly one new `response_needed` notification
for that lead, with reported urgency `critical` when `minutesElapsed ≥ 10`
and `high` otherwise; a job for a lead no longer `new` appends none.  No
per-threshold deduplication exists, so each further scan of an unresolved
lead adds another notification. -/
theorem processResponseTimeAlert_appends (leads : List Lead) (notifs : List Notification)
    (lead : Lead) (leadId : Nat) (minutesElapsed : Int) (now : Int)
    (hfind : leads.find? (fun l => l.id == leadId) = some lead) :
    (lead.status = "new" →
      processResponseTimeAlert leads notifs leadId minutesElapsed now =
        some { notifications := notifs ++ [createResponseNeededAlert lead now],
               status := "processed",
               urgency := some (if minutesElapsed ≥ 10 then "critical" else "high") }) ∧
      (lead.status ≠ "new" →
        processResponseTimeAlert leads notifs leadId minutesElapsed now =
          some { notifications := notifs, status := "skipped", urgency := none }) := by
  unfold processResponseTimeAlert
  rw [hfind]
  dsimp only
  constructor
  · intro hnew
    rw [if_neg (show ¬lead.status ≠ "new" from fun h => h hnew)]
  · intro hold
    rw [if_pos hold]

/-- Witness for `processResponseTimeAlert_appends` at the concrete still-new
lead and a 12-minute delay. -/
theorem processResponseTimeAlert_appends_witness :
    processResponseTimeAlert [c2Lead] [] 42 12 (12 * 60000) =
      some { notifications := [createResponseNeededAlert c2Lead (12 * 60000)],
             status := "processed", urgency := some "critical" } := by
  have h := processResponseTimeAlert_appends [c2Lead] [] c2Lead 42 12 (12 * 60000) (by decide)
  rw [h.1 (by decide)]
  decide

/-! ### Claim C3: job retry, terminal failure, and the failed statistics -/

/-- Queue retry configuration from `defaultJobOptions` in `initializeQueues`
(src/src/app.js, lines 237-246): `attempts: 3`, exponential backoff with base
delay 2000 ms, `removeOnComplete: 50`, `removeOnFail: 20`. -/
def queueDefaultAttempts : Nat := 3

/-- Exponential backoff base delay (ms) from `defaultJobOptions`. -/
def queueBackoffBaseDelay : Nat := 2000

/-- Completed-set retention bound from `defaultJobOptions`. -/
def queueRemoveOnComplete : Nat := 50

/-- Failed-set retention bound from `defaultJobOptions`: the queue library
keeps only this many most recent failed jobs and deletes older ones. -/
def queueRemoveOnFail : Nat := 20

/-- Terminal status of a job after one more handler failure.  Modelled from
the spec: the priority job dispatcher itself is the external queue library,
which the spec describes as retrying a failed handler up to `max_attempts`
with exponentially growing delay `base_delay × 2^attempts` and then recording
the job as permanently failed. -/
inductive JobStatus where
  | delayed (ms : Nat)
  | failedTerminal
deriving Repr, DecidableEq

/-- Modelled from the spec: dispatcher reaction to a handler failure when
`attemptsMade` attempts have already run.  The new attempt count is
`attemptsMade + 1`; below `maxAttempts` the job is delayed by
`base × 2^attemptsMade` (the spec's `base_delay × 2^attempts`), otherwise it
becomes terminally failed. -/
def dispatchFail (maxAttempts base attemptsMade : Nat) : JobStatus :=
  let made := attemptsMade + 1
  if made < maxAttempts then JobStatus.delayed (base * 2 ^ (made - 1))
  else JobStatus.failedTerminal

/-- Modelled from the spec plus the repository's `removeOnFail` option: when a
job becomes terminally failed it is appended to the failed set, and only the
`cap` most recent failed jobs are retained. -/
def recordFailed (cap : Nat) (failedSet : List Nat) (jobId : Nat) : List Nat :=
  let l := failedSet ++ [jobId]
  if l.length ≤ cap then l else l.drop (l.length - cap)

/-- Failed set after a batch of jobs fails terminally in order. -/
def failedAfterJobs (cap : Nat) (ids : List Nat) : List Nat :=
  ids.foldl (recordFailed cap) []

/-- Per-domain statistics of `getQueueStats` (src/src/app.js, 473-501): the
failed count is the length of the retained failed set. -/
def failedStatCount (cap : Nat) (ids : List Nat) : Nat :=
  (failedAfterJobs cap ids).length

/-- Claim C3, refutation of the claim as stated: with the repository's
`removeOnFail: 20`, after 21 jobs fail terminally the first job is no longer
in the failed set and the failed statistic reports 20, so a permanently
failed job does not always remain counted — it is silently evicted once 20
newer failures accumulate. -/
theorem failed_job_evicted_from_stats :
    (0 ∈ failedAfterJobs queueRemoveOnFail (List.range 21)) = False ∧
      failedStatCount queueRemoveOnFail (List.range 21) = 20 ∧
      (0 ∈ failedAfterJobs queueRemoveOnFail (List.range 20)) = True := by
  refine ⟨by decide, by decide, by decide⟩

/-- Claim C3 (amended): a job whose handler fails on every attempt is retried
with exponentially growing delay — after `k + 1` failed attempts, while
`k + 1 < max_attempts`, the next run is delayed by `base × 2^k` — and once
`max_attempts` is exhausted it becomes terminally failed; the terminally
failed job is recorded in the failed set and counted by the statistics query
as long as at most `removeOnFail` (20) failed jobs have accumulated, older
failed jobs being evicted beyond that bound. -/
theorem failing_job_retries_then_failed (maxAttempts base attemptsMade : Nat) (cap : Nat)
    (ids : List Nat) (jobId : Nat)
    (hmem : jobId ∈ ids) (hlen : ids.length ≤ cap) :
    (attemptsMade + 1 < maxAttempts →
        dispatchFail maxAttempts base attemptsMade =
          JobStatus.delayed (base * 2 ^ attemptsMade)) ∧
      (maxAttempts ≤ attemptsMade + 1 →
        dispatchFail maxAttempts base attemptsMade = JobStatus.failedTerminal) ∧
      jobId ∈ failedAfterJobs cap ids ∧
      failedStatCount cap ids = ids.length := by
  have hfold : ∀ (l : List Nat) (acc : List Nat), acc.length + l.length ≤ cap →
      l.foldl (recordFailed cap) acc = acc ++ l := by
    intro l
    induction l with
    | nil => intro acc _; simp
    | cons x xs ih =>
      intro acc hacc
      simp only [List.length_cons] at hacc
      simp only [List.foldl_cons]
      have hcond : (acc ++ [x]).length ≤ cap := by
        simp only [List.length_append, List.length_cons, List.length_nil]
        omega
      have hstep : recordFailed cap acc x = acc ++ [x] := by
        unfold recordFailed
        dsimp only
        rw [if_pos hcond]
      rw [hstep, ih]
      · simp
      · simp only [List.length_append, List.length_cons, List.length_nil]
        omega
  have hall : failedAfterJobs cap ids = ids := by
    unfold failedAfterJobs
    have := hfold ids [] (by simpa using hlen)
    simpa using this
  refine ⟨?_, ?_, ?_, ?_⟩
  · intro hlt
    unfold dispatchFail
    rw [if_pos hlt]
    simp
  · intro hge
    unfold dispatchFail
    rw [if_neg (by omega)]
  · rw [hall]; exact hmem
  · unfold failedStatCount
    rw [hall]

/-- Witness for `failing_job_retries_then_failed` with the repository's
configuration: 5 failing jobs, all retained; job 3 delayed by 2000·2¹ after
its second failure and terminally failed after its third. -/
theorem failing_job_retries_then_failed_witness :
    (3 ∈ List.range 5) ∧ (List.range 5).length ≤ queueRemoveOnFail ∧
      (1 + 1 < queueDefaultAttempts →
        dispatchFail queueDefaultAttempts queueBackoffBaseDelay 1 =
          JobStatus.delayed (queueBackoffBaseDelay * 2 ^ 1)) ∧
      (queueDefaultAttempts ≤ 2 + 1 →
        dispatchFail queueDefaultAttempts queueBackoffBaseDelay 2 =
          JobStatus.failedTerminal) ∧
      3 ∈ failedAfterJobs queueRemoveOnFail (List.range 5) ∧
      failedStatCount queueRemoveOnFail (List.range 5) = 5 := by
  have h1 := failing_job_retries_then_failed queueDefaultAttempts queueBackoffBaseDelay 1
    queueRemoveOnFail (List.range 5) 3 (by decide) (by decide)
  have h2 := failing_job_retries_then_failed queueDefaultAttempts queueBackoffBaseDelay 2
    queueRemoveOnFail (List.range 5) 3 (by decide) (by decide)
  exact ⟨by decide, by decide, h1.1, h2.2.1, h1.2.2.1, by decide⟩

/-! ### Claim C6: idempotent form-submission ingestion -/

/-- Semantics of `x || null` for a numeric field: 0 is falsy and becomes
null. -/
def jsOrNull (o : Option Int) : Option Int :=
  match o with
  | some v => if v = 0 then none else some v
  | none => none

/-- Webhook log record (WebhookLog model, src/unnamed/part_002). -/
structure WebhookLog where
  log_id : Nat
  source : String
  event_type : String
  processed : Bool := false
  lead_id : Option Nat := none
  error_message : Option String := none
  retry_count : Nat := 0
deriving Repr, DecidableEq

/-- Translation of `WebhookLog.prototype.markProcessed` (part_002, 420-429). -/
def WebhookLog.markProcessed (log : WebhookLog) (leadId : Option Nat) : WebhookLog :=
  { log with
    processed := true
    error_message := none
    lead_id := (match leadId with | some i => some i | none => log.lead_id) }

/-- Translation of `WebhookLog.prototype.markFailed` (part_002, 431-436). -/
def WebhookLog.markFailed (log : WebhookLog) (msg : String) : WebhookLog :=
  { log with
    processed := false
    error_message := some msg
    retry_count := log.retry_count + 1 }

/-- Body of a `POST /api/v2/webhooks/form-submission` request, restricted to
the fields the handler copies into a lead. -/
structure FormPayload where
  company_name : Option String := none
  contact_name : String := ""
  email : String := ""
  phone : Option String := none
  service_type : String := "corporate"
  service_date : Option Int := none
  passenger_count : Option Int := none
  estimated_value : Option Int := none
deriving Repr, DecidableEq

/-- Lead data extraction of the form-submission handler
(src/src/routes/webhooks.js, lines 54-81). -/
def payloadToLead (p : FormPayload) (newId : Nat) (now : Int) : Lead :=
  { id := newId,
    company_name := p.company_name.getD "",
    contact_name := p.contact_name,
    email := p.email,
    phone := p.phone,
    service_type := p.service_type,
    service_date := p.service_date,
    passenger_count := jsOrNull p.passenger_count,
    estimated_value := jsOrNull p.estimated_value,
    status := "new",
    created_at := now }

/-- Persistent state touched by the form-submission endpoint. -/
structure WebhookState where
  leads : List Lead
  logs : List WebhookLog
deriving Repr, DecidableEq

/-- Response shape of the form-submission endpoint. -/
structure FormResponse where
  status : String
  lead_created : Bool
  lead_id : Option Nat
deriving Repr, DecidableEq

/-- Translation of the `POST /form-submission` handler (webhooks.js, 29-199):
log the event, look for a lead with the same email created within the last 24
hours (the dedup window), and either link the duplicate, or create the lead;
a creation colliding with the unique `Lead.email` column (part_002, 618-626)
throws, which the handler's catch logs as a failed webhook. -/
def formSubmission (st : WebhookState) (p : FormPayload) (newLeadId newLogId : Nat)
    (now : Int) : WebhookState × FormResponse :=
  let log : WebhookLog :=
    { log_id := newLogId, source := "website_form", event_type := "form_submission" }
  match st.leads.find? (fun l => l.email == p.email && l.created_at ≥ now - 86400000) with
  | some existing =>
    ({ leads := st.leads, logs := st.logs ++ [log.markProcessed (some existing.id)] },
     { status := "processed", lead_created := false, lead_id := some existing.id })
  | none =>
    if st.leads.any (fun l => l.email == p.email) then
      ({ leads := st.leads,
         logs := st.logs ++
           [log,
            WebhookLog.markFailed
              { log_id := newLogId + 1, source := "website_form",
                event_type := "form_submission_failed" } "unique constraint violation"] },
       { status := "error", lead_created := false, lead_id := none })
    else
      let lead := createLead (payloadToLead p newLeadId now)
      ({ leads := st.leads ++ [lead], logs := st.logs ++ [log.markProcessed (some lead.id)] },
       { status := "processed", lead_created := true, lead_id := some lead.id })

theorem createLead_preserves_identity (x : Lead) :
    (createLead x).email = x.email ∧ (createLead x).id = x.id ∧
      (createLead x).created_at = x.created_at := by
  refine ⟨rfl, rfl, rfl⟩

theorem find?_append_of_none {α : Type} (p : α → Bool) (a b : List α)
    (h : a.find? p = none) : (a ++ b).find? p = b.find? p := by
  induction a with
  | nil => rfl
  | cons x xs ih =>
    rw [List.find?_cons] at h
    cases hx : p x with
    | true => rw [hx] at h; exact absurd h (by simp)
    | false =>
      rw [hx] at h
      rw [List.cons_append, List.find?_cons, hx]
      exact ih h

/-- Equation for the duplicate branch of `formSubmission`. -/
theorem formSubmission_dup (st : WebhookState) (p : FormPayload) (i g : Nat) (now : Int)
    (e : Lead)
    (hfind : st.leads.find?
      (fun l => l.email == p.email && l.created_at ≥ now - 86400000) = some e) :
    formSubmission st p i g now =
      ({ leads := st.leads,
         logs := st.logs ++
           [WebhookLog.markProcessed
             { log_id := g, source := "website_form", event_type := "form_submission" }
             (some e.id)] },
       { status := "processed", lead_created := false, lead_id := some e.id }) := by
  unfold formSubmission
  rw [hfind]

/-- Equation for the unique-constraint-violation branch of `formSubmission`. -/
theorem formSubmission_conflict (st : WebhookState) (p : FormPayload) (i g : Nat) (now : Int)
    (hfind : st.leads.find?
      (fun l => l.email == p.email && l.created_at ≥ now - 86400000) = none)
    (hany : st.leads.any (fun l => l.email == p.email) = true) :
    formSubmission st p i g now =
      ({ leads := st.leads,
         logs := st.logs ++
           [{ log_id := g, source := "website_form", event_type := "form_submission" },
            WebhookLog.markFailed
              { log_id := g + 1, source := "website_form",
                event_type := "form_submission_failed" } "unique constraint violation"] },
       { status := "error", lead_created := false, lead_id := none }) := by
  unfold formSubmission
  rw [hfind, hany]
  rfl

/-- Equation for the creation branch of `formSubmission`. -/
theorem formSubmission_create (st : WebhookState) (p : FormPayload) (i g : Nat) (now : Int)
    (hfind : st.leads.find?
      (fun l => l.email == p.email && l.created_at ≥ now - 86400000) = none)
    (hany : st.leads.any (fun l => l.email == p.email) = false) :
    formSubmission st p i g now =
      ({ leads := st.leads ++ [createLead (payloadToLead p i now)],
         logs := st.logs ++
           [WebhookLog.markProcessed
             { log_id := g, source := "website_form", event_type := "form_submission" }
             (some i)] },
       { status := "processed", lead_created := true, lead_id := some i }) := by
  unfold formSubmission
  rw [hfind, hany]
  rfl

/-- Claim C6: submitting the same form payload twice, the second within the
24-hour window, yields the same lead set as submitting it once — the second
submission is detected as a duplicate, linked to the lead the first created,
and acknowledged as a processed no-op — and, for any state whose leads have
pairwise distinct emails (the unique `Lead.email` constraint), a submission
never produces two leads with the same dedup key. -/
theorem webhook_replay_idempotent (st : WebhookState) (p : FormPayload)
    (id1 g1 id2 g2 : Nat) (now1 now2 : Int)
    (hfresh : ∀ l ∈ st.leads, l.email ≠ p.email)
    (hwindow : now2 - 86400000 ≤ now1) :
    ((formSubmission (formSubmission st p id1 g1 now1).1 p id2 g2 now2).1.leads =
        (formSubmission st p id1 g1 now1).1.leads) ∧
      ((formSubmission (formSubmission st p id1 g1 now1).1 p id2 g2 now2).2 =
        { status := "processed", lead_created := false, lead_id := some id1 }) ∧
      ((formSubmission st p id1 g1 now1).2 =
        { status := "processed", lead_created := true, lead_id := some id1 }) ∧
      (∀ (st3 : WebhookState) (q : FormPayload) (i g : Nat) (t : Int),
        st3.leads.Pairwise (fun a b => a.email ≠ b.email) →
        ((formSubmission st3 q i g t).1.leads).Pairwise (fun a b => a.email ≠ b.email)) := by
  have hpredfalse : ∀ (t : Int), ∀ l ∈ st.leads,
      (l.email == p.email && decide (l.created_at ≥ t)) = false := by
    intro t l hl
    have hne : (l.email == p.email) = false := by
      simp [hfresh l hl]
    rw [hne]
    rfl
  have hfind1 : st.leads.find?
      (fun l => l.email == p.email && l.created_at ≥ now1 - 86400000) = none := by
    rw [List.find?_eq_none]
    intro l hl
    rw [hpredfalse (now1 - 86400000) l hl]
    exact Bool.false_ne_true
  have hany1 : st.leads.any (fun l => l.email == p.email) = false := by
    rw [List.any_eq_false]
    intro l hl
    simp [hfresh l hl]
  have hrun1 := formSubmission_create st p id1 g1 now1 hfind1 hany1
  have hnewpred : ((createLead (payloadToLead p id1 now1)).email == p.email &&
      decide ((createLead (payloadToLead p id1 now1)).created_at ≥ now2 - 86400000)) = true := by
    have he : (createLead (payloadToLead p id1 now1)).email = p.email := rfl
    have hc : (createLead (payloadToLead p id1 now1)).created_at = now1 := rfl
    rw [he, hc]
    simp [hwindow]
  have hfind2 : ((formSubmission st p id1 g1 now1).1.leads).find?
      (fun l => l.email == p.email && l.created_at ≥ now2 - 86400000) =
        some (createLead (payloadToLead p id1 now1)) := by
    rw [hrun1]
    dsimp only
    rw [find?_append_of_none _ _ _ (by
      rw [List.find?_eq_none]
      intro l hl
      rw [hpredfalse (now2 - 86400000) l hl]
      exact Bool.false_ne_true)]
    rw [List.find?_cons, hnewpred]
  have hid : (createLead (payloadToLead p id1 now1)).id = id1 := rfl
  have hrun2 := formSubmission_dup (formSubmission st p id1 g1 now1).1 p id2 g2 now2
    (createLead (payloadToLead p id1 now1)) hfind2
  refine ⟨?_, ?_, ?_, ?_⟩
  · rw [hrun2]
  · rw [hrun2, hid]
  · rw [hrun1]
  · intro st3 q i g t hpw
    cases hf : st3.leads.find?
        (fun l => l.email == q.email && l.created_at ≥ t - 86400000) with
    | some e => rw [formSubmission_dup st3 q i g t e hf]; exact hpw
    | none =>
      cases ha : st3.leads.any (fun l => l.email == q.email) with
      | true => rw [formSubmission_conflict st3 q i g t hf ha]; exact hpw
      | false =>
        rw [formSubmission_create st3 q i g t hf ha]
        dsimp only
        rw [List.pairwise_append]
        refine ⟨hpw, by simp, ?_⟩
        intro a ha2 b hb
        have hane : (a.email == q.email) = false := by
          have := List.any_eq_false.mp ha a ha2
          simpa using this
        have hbe : b = createLead (payloadToLead q i t) := by
          simpa using hb
        have hqe : (createLead (payloadToLead q i t)).email = q.email := rfl
        rw [hbe, hqe]
        simpa using hane

/-- Witness for `webhook_replay_idempotent` from the empty state: the first
submission creates lead 1, the immediate replay is a linked no-op. -/
theorem webhook_replay_idempotent_witness :
    ((formSubmission
        (formSubmission ⟨[], []⟩ { contact_name := "Jo", email := "jo@x.test" } 1 1 0).1
        { contact_name := "Jo", email := "jo@x.test" } 2 2 60000).1.leads =
      (formSubmission ⟨[], []⟩ { contact_name := "Jo", email := "jo@x.test" } 1 1 0).1.leads) ∧
      ((formSubmission
          (formSubmission ⟨[], []⟩ { contact_name := "Jo", email := "jo@x.test" } 1 1 0).1
          { contact_name := "Jo", email := "jo@x.test" } 2 2 60000).2 =
        { status := "processed", lead_created := false, lead_id := some 1 }) := by
  have h := webhook_replay_idempotent ⟨[], []⟩ { contact_name := "Jo", email := "jo@x.test" }
    1 1 2 2 0 60000 (by simp) (by decide)
  exact ⟨h.1, h.2.1⟩

/-! ### Claim C10: termination of getNextBusinessHour -/

/-- Translation of `isBusinessHours` (src/src/queues/processors/
emailProcessor.js, lines 318-329).  The function takes no parameters and
reads the current clock; it is embedded as a function of the clock's hour and
day of week. -/
def isBusinessHours (hour day : Nat) : Bool :=
  let isWeekend := day == 0 || day == 6
  let minHour := if isWeekend then 8 else 6
  let maxHour := if isWeekend then 20 else 22
  decide (hour ≥ minHour) && decide (hour < maxHour)

/-- Translation of the `while (!isBusinessHours(next))` loop of
`getNextBusinessHour` (emailProcessor.js, 334-347), with explicit fuel.  The
source passes `next` to `isBusinessHours`, but that function accepts no
parameters and re-reads the current clock, so the loop guard depends only on
the invocation-time hour and weekday (`nowHour`, `nowDay`) and never on the
candidate `next` being advanced. -/
def getNextBusinessHourLoop (nowHour nowDay next : Nat) : Nat → Option Nat
  | 0 => none
  | fuel + 1 =>
    if isBusinessHours nowHour nowDay then some next
    else getNextBusinessHourLoop nowHour nowDay (next + 1) fuel

/-- Entry point of `getNextBusinessHour`: start from the top of the next
hour and run the loop. -/
def getNextBusinessHour (nowHour nowDay : Nat) (fuel : Nat) : Option Nat :=
  getNextBusinessHourLoop nowHour nowDay (nowHour + 1) fuel

/-- Claim C10: at any invocation time outside business hours — exactly the
condition under which the follow-up processor calls `getNextBusinessHour` —
the loop guard is constant, so no amount of fuel makes the loop terminate;
shown here both in general and at the concrete instant Monday 23:00. -/
theorem getNextBusinessHour_stuck_outside_hours :
    isBusinessHours 23 1 = false ∧
      (∀ fuel next : Nat, getNextBusinessHourLoop 23 1 next fuel = none) ∧
      (∀ fuel : Nat, getNextBusinessHour 23 1 fuel = none) := by
  have hloop : ∀ fuel next : Nat, getNextBusinessHourLoop 23 1 next fuel = none := by
    intro fuel
    induction fuel with
    | zero => intro next; rfl
    | succ n ih =>
      intro next
      unfold getNextBusinessHourLoop
      rw [if_neg (by decide)]
      exact ih (next + 1)
  exact ⟨by decide, hloop, fun fuel => hloop fuel 24⟩
